import Mathlib

/-!
# Verification of the Syncora real-time chat synchronization core

Shallow embedding of the client-side synchronization logic of the Syncora
direct-messaging application: the conversation message log (`ChatWindow`),
the friend-request flow (`UserSearch.sendFriendRequest`,
`Notifications.handleFriendRequest`) and the notification inbox
(`Notifications.fetchNotifications` / `unreadCount`).

Rows are modelled with `Nat` ids and user ids and `String` text; the remote
store is modelled as explicit lists of rows, and fallible remote calls are
parameterized by their outcome so that error paths of the source can be
examined.
-/

namespace Syncora

/-- Friendship status, mirroring the TS union `'pending' | 'accepted' | 'rejected'`
(types/database, `Friendship.status`). -/
inductive Status where
  | pending
  | accepted
  | rejected
deriving DecidableEq, Repr

/-- Media kind, mirroring the TS union `'image' | 'video' | 'file' | 'gif'`
(types/database, `Message.media_type`). -/
inductive MediaType where
  | image
  | video
  | file
  | gif
deriving DecidableEq, Repr

/-- Notification kind, mirroring the TS union
`'friend_request' | 'friend_accepted' | 'message'`. -/
inductive NotifKind where
  | friend_request
  | friend_accepted
  | message
deriving DecidableEq, Repr

/-- A `messages` row (types/database `Message`). `created_at` is a `Nat`
timestamp. -/
structure Msg where
  id : Nat
  sender_id : Nat
  receiver_id : Nat
  content : Option String
  media_url : Option String
  media_type : Option MediaType
  file_name : Option String
  read : Bool
  created_at : Nat
deriving DecidableEq, Repr

/-- A `friendships` row (types/database `Friendship`). -/
structure Friendship where
  id : Nat
  requester_id : Nat
  addressee_id : Nat
  status : Status
deriving DecidableEq, Repr

/-- A `notifications` row (types/database `Notification`). -/
structure Notif where
  id : Nat
  user_id : Nat
  kind : NotifKind
  content : String
  related_id : Nat
  read : Bool
  created_at : Nat
deriving DecidableEq, Repr

/-- A browser `File` restricted to the fields the chat code reads:
`file.name` and `file.type` (the MIME type). -/
structure UFile where
  name : String
  mime : String
deriving DecidableEq, Repr

/-- JS `String.prototype.startsWith`, on the character lists of the strings. -/
def strStartsWith (s p : String) : Bool :=
  p.data.isPrefixOf s.data

/-- JS `String.prototype.trim`: drop leading and trailing whitespace. -/
def strTrim (s : String) : String :=
  ⟨(((s.data.dropWhile Char.isWhitespace).reverse.dropWhile Char.isWhitespace).reverse)⟩

/-- Embedding of `ChatWindow.getMediaType` (part_003 lines 91-96): classify an attached
file by its MIME type. -/
def getMediaType (f : UFile) : MediaType :=
  if f.mime = "image/gif" then .gif
  else if strStartsWith f.mime "image/" then .image
  else if strStartsWith f.mime "video/" then .video
  else .file

/-! ## Conversation log (`ChatWindow`, part_003)

The local message log is the React state `messages : Message[]`.  Two code
paths append to it:

* the realtime handler for feed `INSERT` events (part_003 lines 69-76),
  which discards the payload when a row with the same id is already present;
* the confirmed-write append inside `sendMessage` (part_003 lines 188-191),
  which appends the server-returned row unconditionally.
-/

/-- The feed `INSERT` handler of `ChatWindow` (part_003 lines 69-76):
append the payload row unless a row with the same id is already in the log. -/
def handleInsertEcho (log : List Msg) (newMsg : Msg) : List Msg :=
  if log.any (fun m => m.id == newMsg.id) then log else log ++ [newMsg]

/-- The confirmed-write append of `sendMessage` (part_003 line 190):
`setMessages(prev => [...prev, data])`, an unconditional append. -/
def confirmedAppend (log : List Msg) (m : Msg) : List Msg :=
  log ++ [m]

/-- Number of log entries carrying a given row id. -/
def countById (log : List Msg) (id : Nat) : Nat :=
  log.countP (fun m => m.id == id)

/-- The log entry for a given row id (first match). -/
def findById (log : List Msg) (id : Nat) : Option Msg :=
  log.find? (fun m => m.id == id)

/-- A concrete server-returned message row used in counterexamples. -/
def msg7 : Msg :=
  ⟨7, 1, 2, some "hi", none, none, none, false, 0⟩

/-! ## Feed events on the conversation subscription (C2) -/

/-- The change type of a feed event (`postgres_changes` INSERT/UPDATE). -/
inductive ChangeType where
  | insert
  | update
deriving DecidableEq, Repr

/-- Whether a change type is an insert. -/
def ChangeType.isInsert : ChangeType → Bool
  | .insert => true
  | .update => false

/-- A change-feed event on the conversation topic. -/
structure ConvEvent where
  change : ChangeType
  row : Msg
deriving DecidableEq, Repr

/-- Effect of one feed event on the conversation log.  The `ChatWindow`
channel registers a handler only for `INSERT` events (part_003 line 64,
`event: 'INSERT'`), so an `UPDATE` event never reaches any handler and
leaves the log unchanged; an `INSERT` event runs the dedup-append handler. -/
def applyConvEvent (log : List Msg) (e : ConvEvent) : List Msg :=
  match e.change with
  | .insert => handleInsertEcho log e.row
  | .update => log

/-- The payload of the first insert event in a sequence that carries the
given row id, if any. -/
def firstInsert (events : List ConvEvent) (id : Nat) : Option Msg :=
  (events.find? (fun e => e.change.isInsert && e.row.id == id)).map (fun e => e.row)

/-- Row id 1 with content "a" (initial insert payload). -/
def msgA : Msg := ⟨1, 1, 2, some "a", none, none, none, false, 0⟩

/-- Row id 1 with content "b" (later update payload). -/
def msgB : Msg := ⟨1, 1, 2, some "b", none, none, none, false, 0⟩

/-! ## Conversation switching (C3)

When the selected `friend` changes, React runs the previous effect's
cleanup (`supabase.removeChannel(channel)`, part_003 lines 80-82) before
the next effect body runs `fetchMessages` and creates the new channel
(lines 54-78).  At every instant at most one conversation subscription is
live; `ConvUiState.active` records its conversation tag. -/

/-- A feed event tagged with the conversation (topic) it belongs to. -/
structure TaggedEvent where
  conv : Nat
  row : Msg
deriving DecidableEq, Repr

/-- State of `ChatWindow`: the live subscription's conversation and the log. -/
structure ConvUiState where
  active : Nat
  log : List Msg
deriving DecidableEq, Repr

/-- Opening a conversation: the old channel is removed before the new one
is created, and the log is replaced by the fetch result. -/
def openConv (fetched : List Msg) (b : Nat) : ConvUiState :=
  ⟨b, fetched⟩

/-- Delivery of a tagged event: only the live subscription's handler exists,
so an event for any other conversation is not applied. -/
def deliverTagged (st : ConvUiState) (e : TaggedEvent) : ConvUiState :=
  if e.conv == st.active then { st with log := handleInsertEcho st.log e.row } else st

/-- An event tagged with conversation 0 ("A"). -/
def evA : TaggedEvent := ⟨0, ⟨3, 5, 6, some "from A", none, none, none, false, 0⟩⟩

/-- An event tagged with conversation 1 ("B"). -/
def evB : TaggedEvent := ⟨1, ⟨4, 1, 2, some "from B", none, none, none, false, 0⟩⟩

/-! ## Friend requests (`UserSearch.sendFriendRequest`, part_001) -/

/-- The existence check of `sendFriendRequest` (part_001 lines 53-57): a
friendship row between the unordered pair, in either orientation, any
status. -/
def pairExists (fs : List Friendship) (a b : Nat) : Bool :=
  fs.any (fun f => (f.requester_id == a && f.addressee_id == b) ||
    (f.requester_id == b && f.addressee_id == a))

/-- The remote stores touched by the friend-request flow. -/
structure Store where
  friendships : List Friendship
  notifications : List Notif
deriving DecidableEq, Repr

/-- Outcome of `sendFriendRequest`: the existing-row toast ('Request
Already Exists'), the catch branch ('Error'), or the success toast
('Request Sent'). -/
inductive SfrResult where
  | conflict
  | insertFailed
  | success
deriving DecidableEq, Repr

/-- Embedding of `UserSearch.sendFriendRequest` (part_001 lines 49-104), with the remote
outcomes explicit: `fErr` is whether the friendships insert returns an
error (lines 71-79: the error is checked and thrown into the catch);
`nErr` is whether the notifications insert returns an error (lines 82-89:
the result object is discarded, so its error is never read and the success
toast still runs).  `newFid`/`newNid` are server-assigned row ids and `now`
the server timestamp. -/
def sendFriendRequest (st : Store) (callerId addresseeId : Nat)
    (newFid newNid now : Nat) (fErr nErr : Bool) : SfrResult × Store :=
  if pairExists st.friendships callerId addresseeId then (.conflict, st)
  else if fErr then (.insertFailed, st)
  else
    let st1 : Store :=
      { st with friendships := st.friendships ++ [⟨newFid, callerId, addresseeId, .pending⟩] }
    let st2 : Store :=
      if nErr then st1
      else
        { st1 with notifications := st1.notifications ++
            [⟨newNid, addresseeId, .friend_request, "You have a new friend request",
              callerId, false, now⟩] }
    (.success, st2)

/-! ## Friendship state machine (C4) -/

/-- The operations that touch friendship rows: `sendFriendRequest`'s
check-then-insert (part_001 lines 53-79) and `handleFriendRequest`'s
status update filtered only by row id (Notifications.tsx lines 97-100).
Feed reconciliation (the `fetchNotifications` refetches) reads but never
writes the store, so it does not appear. -/
inductive FOp where
  | request (requester addressee newId : Nat)
  | respond (id : Nat) (accept : Bool)
deriving DecidableEq, Repr

/-- Effect of one friendship operation on the friendships table.  The
respond update mirrors `.update({status}).eq('id', friendshipId)`: it sets
the status of the row with the given id *unconditionally*, with no guard on
the row's current status. -/
def applyFOp (db : List Friendship) (op : FOp) : List Friendship :=
  match op with
  | .request requester addressee newId =>
      if pairExists db requester addressee then db
      else db ++ [⟨newId, requester, addressee, .pending⟩]
  | .respond id accept =>
      db.map (fun f =>
        if f.id == id then { f with status := if accept then .accepted else .rejected } else f)

/-- Run a sequence of friendship operations from an empty table. -/
def runFOps (ops : List FOp) : List Friendship :=
  ops.foldl applyFOp []

/-! ## Responding to a friend request (`Notifications.handleFriendRequest`) -/

/-- Modelled from the spec: the RemoteStore `update(kind, id, fields) ->
Row | NotFound | Forbidden` RPC (spec section 6), whose implementation (the
remote store's query execution) is not part of src/.  Per spec section 4.2,
respond "Fails with `NotFound` if the id does not resolve", so the update
returns `none` (NotFound) when no friendship row carries the id, and
otherwise sets the status of the matching row. -/
def remoteUpdateFriendship (db : List Friendship) (id : Nat) (s : Status) :
    Option (List Friendship) :=
  if db.any (fun f => f.id == id) then
    some (db.map (fun f => if f.id == id then { f with status := s } else f))
  else none

/-- Outcome of `handleFriendRequest`: success toast, or the remote error
surfaced by the catch branch. -/
inductive RespondResult where
  | success
  | notFound
deriving DecidableEq, Repr

/-- Embedding of `Notifications.handleFriendRequest` (Notifications.tsx lines 93-129):
look the friendship up in the locally cached pending list (used only for
the follow-up notification), issue the remote status update — an error is
thrown into the catch branch and surfaced, so no success is reported — and
on success insert a `friend_accepted` notification for the requester when
accepting. -/
def handleFriendRequest (pendingRequests : List Friendship) (db : List Friendship)
    (notifs : List Notif) (userId friendshipId : Nat) (accept : Bool)
    (newNid now : Nat) : RespondResult × List Friendship × List Notif :=
  let friendship := pendingRequests.find? (fun r => r.id == friendshipId)
  match remoteUpdateFriendship db friendshipId (if accept then .accepted else .rejected) with
  | none => (.notFound, db, notifs)
  | some db' =>
      match friendship with
      | some f =>
          if accept then
            (.success, db',
              notifs ++ [⟨newNid, f.requester_id, .friend_accepted,
                "Your friend request was accepted!", userId, false, now⟩])
          else (.success, db', notifs)
      | none => (.success, db', notifs)

/-! ## Sending a message (`ChatWindow.sendMessage`, part_003 lines 152-214) -/

/-- The remote and local state touched by `sendMessage`: the remote
`messages` and `notifications` tables and the local conversation log. -/
structure SendState where
  remoteMsgs : List Msg
  remoteNotifs : List Notif
  log : List Msg
deriving DecidableEq, Repr

/-- Outcome of `sendMessage`: the early-return guard, the two thrown
errors ('Failed to upload file' and the messages-insert error, both
surfaced by the catch branch), or success. -/
inductive SendResult where
  | noop
  | uploadFailed
  | insertFailed
  | success
deriving DecidableEq, Repr

/-- The insert / confirmed-append / notification steps of `sendMessage`
(part_003 lines 171-204): the messages insert error is checked (line 186)
and thrown; on success the server-returned row is appended to the local
log unconditionally (line 190) and a `message` notification insert is
issued whose result object is discarded (lines 194-201), so its error is
never read and the send still ends in the success path. -/
def sendMessageInsert (st : SendState) (newMessage : String)
    (senderId receiverId newId newNid now : Nat) (mediaUrl : Option String)
    (mediaType : Option MediaType) (fileName : Option String)
    (insertErr notifErr : Bool) (senderName : String) : SendResult × SendState :=
  if insertErr then (.insertFailed, st)
  else
    let row : Msg := ⟨newId, senderId, receiverId,
      (if strTrim newMessage == "" then none else some (strTrim newMessage)),
      mediaUrl, mediaType, fileName, false, now⟩
    let st1 : SendState := { st with remoteMsgs := st.remoteMsgs ++ [row],
                                     log := confirmedAppend st.log row }
    let st2 : SendState :=
      if notifErr then st1
      else
        { st1 with remoteNotifs := st1.remoteNotifs ++
            [⟨newNid, receiverId, .message, "New message from " ++ senderName,
              senderId, false, now⟩] }
    (.success, st2)

/-- Embedding of `ChatWindow.sendMessage` (part_003 lines 152-214), remote outcomes
explicit: `uploadResult` is what `uploadFile` returns (`none` models the
upload error path, lines 140-143, which returns null and makes sendMessage
throw 'Failed to upload file'); `insertErr` and `notifErr` are whether the
messages and notifications inserts return errors.  `senderName` models the
local part of the sender's email used in the notification text. -/
def sendMessage (st : SendState) (newMessage : String) (selectedFile : Option UFile)
    (senderId receiverId newId newNid now : Nat) (uploadResult : Option String)
    (insertErr notifErr : Bool) (senderName : String) : SendResult × SendState :=
  if strTrim newMessage == "" && selectedFile.isNone then (.noop, st)
  else
    match selectedFile with
    | some f =>
        match uploadResult with
        | none => (.uploadFailed, st)
        | some url =>
            sendMessageInsert st newMessage senderId receiverId newId newNid now
              (some url) (some (getMediaType f)) (some f.name) insertErr notifErr senderName
    | none =>
        sendMessageInsert st newMessage senderId receiverId newId newNid now
          none none none insertErr notifErr senderName

/-! ## Notification inbox (`Notifications`, Notifications.tsx) -/

/-- Insert a notification into a list sorted by `created_at` descending. -/
def insertByCreatedDesc (n : Notif) : List Notif → List Notif
  | [] => [n]
  | m :: ms =>
      if m.created_at ≤ n.created_at then n :: m :: ms else m :: insertByCreatedDesc n ms

/-- Sort notifications by `created_at` descending (the remote
`order('created_at', { ascending: false })`). -/
def sortByCreatedDesc (l : List Notif) : List Notif :=
  l.foldr insertByCreatedDesc []

/-- The first query of `fetchNotifications` (Notifications.tsx lines
27-35): the caller's notification rows, newest first, `limit(20)`. -/
def fetchUserNotifs (allNotifs : List Notif) (uid : Nat) : List Notif :=
  (sortByCreatedDesc (allNotifs.filter (fun n => n.user_id == uid))).take 20

/-- The second query of `fetchNotifications` (lines 37-47): friendships
addressed to the caller with status pending. -/
def fetchPendingIncoming (fs : List Friendship) (uid : Nat) : List Friendship :=
  fs.filter (fun f => f.addressee_id == uid && f.status == .pending)

/-- The badge count `unreadCount` (Notifications.tsx line 140):
`notifications.filter(n => !n.read).length + pendingRequests.length`,
computed over the fetched (limit-20) notification list. -/
def unreadCount (allNotifs : List Notif) (fs : List Friendship) (uid : Nat) : Nat :=
  ((fetchUserNotifs allNotifs uid).filter (fun n => !n.read)).length +
    (fetchPendingIncoming fs uid).length

/-- 21 unread notifications, all owned by user 1. -/
def manyNotifs : List Notif :=
  (List.range 21).map (fun i => ⟨i, 1, .message, "m", 0, false, i⟩)

/-- Two unread notifications owned by user 1. -/
def twoUnread : List Notif :=
  [⟨0, 1, .message, "m1", 0, false, 0⟩, ⟨1, 1, .friend_request, "m2", 2, false, 1⟩]

/-- One pending friendship addressed to user 1. -/
def onePending : List Friendship :=
  [⟨2, 3, 1, .pending⟩]

/-- Two distinct prefixes of equal length cannot both be prefixes of the
same character list. -/
theorem not_both_image_video (l : List Char) :
    ("image/".data.isPrefixOf l = true) → ("video/".data.isPrefixOf l = true) → False := by
  intro h1 h2
  rw [ List.isPrefixOf_iff_prefix] at h1 h2
  have d1 : "image/".data = 'i' :: "mage/".data := rfl
  have d2 : "video/".data = 'v' :: "ideo/".data := rfl
  rw [d1] at h1
  rw [d2] at h2
  match l with
  | [] => exact absurd (List.prefix_nil.mp h1) (by decide)
  | c :: cs =>
    have e1 : 'i' = c := (List.cons_prefix_cons.mp h1).1
    have e2 : 'v' = c := (List.cons_prefix_cons.mp h2).1
    exact absurd (e1.trans e2.symm) (by decide)

/-- C10: the media kind recorded on a message with an attachment is a pure
function of the file's MIME type: `gif` exactly for `image/gif`, `image` for
other `image/`-prefixed types, `video` for `video/`-prefixed types, and
`file` otherwise. -/
theorem getMediaType_by_mime (f : UFile) :
    (f.mime = "image/gif" → getMediaType f = .gif) ∧
    (strStartsWith f.mime "image/" = true → f.mime ≠ "image/gif" → getMediaType f = .image) ∧
    (strStartsWith f.mime "video/" = true → getMediaType f = .video) ∧
    (strStartsWith f.mime "image/" = false → strStartsWith f.mime "video/" = false →
      getMediaType f = .file) ∧
    (∀ g : UFile, f.mime = g.mime → getMediaType f = getMediaType g) := by
  refine ⟨?_, ?_, ?_, ?_, ?_⟩
  · intro h
    simp [getMediaType, h]
  · intro h hne
    simp [getMediaType, h, hne]
  · intro h
    have hne : f.mime ≠ "image/gif" := by
      intro he
      rw [he] at h
      exact absurd h (by decide)
    have himg : strStartsWith f.mime "image/" = false := by
      cases hb : strStartsWith f.mime "image/"
      · rfl
      · exact (not_both_image_video f.mime.data hb h).elim
    simp [getMediaType, hne, himg, h]
  · intro h1 h2
    have hne : f.mime ≠ "image/gif" := by
      intro he
      rw [he] at h1
      exact absurd h1 (by decide)
    simp [getMediaType, hne, h1, h2]
  · intro g hg
    unfold getMediaType
    rw [hg]

/-- Witness for `getMediaType_by_mime` at a concrete file. -/
theorem getMediaType_by_mime_witness :
    strStartsWith "video/mp4" "video/" = true ∧
      getMediaType ⟨"clip.mp4", "video/mp4"⟩ = .video :=
  ⟨by decide, (getMediaType_by_mime ⟨"clip.mp4", "video/mp4"⟩).2.2.1 (by decide)⟩

/-- C1 counterexample: when the feed echo is delivered *before* the
confirmed-write append, the log ends with two entries for the row id.
Starting from an empty log, the echo for row id 7 is applied first (the id
is not yet present, so it is appended), and then `sendMessage` appends the
server-returned row unconditionally: the claim's "exactly one entry for
that id, regardless of the order" is false in this order. -/
theorem c1_echo_first_counterexample :
    countById (confirmedAppend (handleInsertEcho [] msg7) msg7) 7 = 2 ∧
      countById (confirmedAppend (handleInsertEcho [] msg7) msg7) 7 ≠ 1 := by
  constructor
  · decide
  · decide

/-- C1 (amended): when the confirmed-write append happens before the echo
delivery, a feed insert echo carrying the same row id is discarded by id
match (not content equality) and the log keeps exactly one entry for the
id. -/
theorem c1_dedup_after_confirmed_append (log : List Msg) (r echo : Msg)
    (hfresh : ∀ m ∈ log, m.id ≠ r.id) (hid : echo.id = r.id) :
    handleInsertEcho (confirmedAppend log r) echo = confirmedAppend log r ∧
      countById (confirmedAppend log r) r.id = 1 := by
  constructor
  · unfold handleInsertEcho confirmedAppend
    rw [if_pos]
    rw [List.any_append]
    have : [r].any (fun m => m.id == echo.id) = true := by
      simp [hid]
    simp [this]
  · unfold countById confirmedAppend
    rw [List.countP_append]
    have h0 : log.countP (fun m => m.id == r.id) = 0 := by
      rw [List.countP_eq_zero]
      intro m hm
      simp only [beq_iff_eq]
      exact hfresh m hm
    simp [h0]

/-- Witness for `c1_dedup_after_confirmed_append`: the echo row differs from
the appended row in content but shares its id, and is still discarded. -/
theorem c1_dedup_after_confirmed_append_witness :
    handleInsertEcho (confirmedAppend [] msg7) ⟨7, 1, 2, some "other", none, none, none, true, 9⟩ =
        confirmedAppend [] msg7 ∧
      countById (confirmedAppend [] msg7) 7 = 1 :=
  c1_dedup_after_confirmed_append [] msg7 ⟨7, 1, 2, some "other", none, none, none, true, 9⟩
    (by intro m hm; simp at hm) rfl

/-- C2 counterexample: delivering `insert(id 1, "a")` then `update(id 1,
"b")` leaves the materialized row equal to the *insert* payload, not the
last event's payload: the subscription handles only `INSERT` events, so the
update never overrides the insert. -/
theorem c2_update_ignored_counterexample :
    findById (List.foldl applyConvEvent [] [⟨.insert, msgA⟩, ⟨.update, msgB⟩]) 1 = some msgA ∧
      some msgA ≠ some msgB := by
  constructor
  · decide
  · decide

/-- The test `any` over the id predicate agrees with `find?` producing a result. -/
theorem any_id_eq_isSome_findById (l : List Msg) (j : Nat) :
    l.any (fun m => m.id == j) = (findById l j).isSome := by
  rw [Bool.eq_iff_iff, List.any_eq_true]
  unfold findById
  exact (List.find?_isSome).symm

/-- Looking up an id in the log produced by folding conversation feed
events: an id already materialized is never overwritten, and a fresh id is
materialized by the first insert event that carries it. -/
theorem findById_foldl_applyConvEvent (events : List ConvEvent) :
    ∀ (l : List Msg) (id : Nat),
      findById (List.foldl applyConvEvent l events) id =
        match findById l id with
        | some m => some m
        | none => firstInsert events id := by
  induction events with
  | nil =>
    intro l id
    simp only [List.foldl_nil, firstInsert, List.find?_nil, Option.map_none']
    cases findById l id <;> rfl
  | cons e es ih =>
    intro l id
    rw [List.foldl_cons, ih (applyConvEvent l e) id]
    cases hc : e.change with
    | update =>
      have h1 : applyConvEvent l e = l := by
        unfold applyConvEvent
        rw [hc]
      have h2 : firstInsert (e :: es) id = firstInsert es id := by
        unfold firstInsert
        rw [List.find?_cons_of_neg]
        simp [ChangeType.isInsert, hc]
      rw [h1, h2]
    | insert =>
      have h1 : applyConvEvent l e = handleInsertEcho l e.row := by
        unfold applyConvEvent
        rw [hc]
      rw [h1]
      by_cases hid : e.row.id = id
      · have h2 : firstInsert (e :: es) id = some e.row := by
          unfold firstInsert
          rw [List.find?_cons_of_pos]
          · rfl
          · simp [ChangeType.isInsert, hc, hid]
        rw [h2]
        cases hf : findById l id with
        | some m =>
          have hsome : (findById l e.row.id).isSome = true := by
            rw [hid, hf]
            rfl
          have hany : l.any (fun m => m.id == e.row.id) = true := by
            rw [any_id_eq_isSome_findById, hsome]
          have heq : handleInsertEcho l e.row = l := by
            unfold handleInsertEcho
            rw [if_pos hany]
          rw [heq, hf]
        | none =>
          have hnone : (findById l e.row.id).isSome = false := by
            rw [hid, hf]
            rfl
          have hany : l.any (fun m => m.id == e.row.id) = false := by
            rw [any_id_eq_isSome_findById, hnone]
          have heq : handleInsertEcho l e.row = l ++ [e.row] := by
            unfold handleInsertEcho
            rw [if_neg]
            rw [hany]
            exact Bool.false_ne_true
          rw [heq]
          have hfind : findById (l ++ [e.row]) id = some e.row := by
            unfold findById at hf ⊢
            rw [List.find?_append, hf, Option.none_or, List.find?_cons_of_pos]
            simp [hid]
          rw [hfind]
      · have h2 : firstInsert (e :: es) id = firstInsert es id := by
          unfold firstInsert
          rw [List.find?_cons_of_neg]
          simp [ChangeType.isInsert, hc, hid]
        rw [h2]
        have hsame : findById (handleInsertEcho l e.row) id = findById l id := by
          unfold handleInsertEcho
          by_cases hany : l.any (fun m => m.id == e.row.id) = true
          · rw [if_pos hany]
          · rw [if_neg hany]
            unfold findById
            rw [List.find?_append]
            have : List.find? (fun m => m.id == id) [e.row] = none := by
              rw [List.find?_cons_of_neg]
              · rfl
              · simp [hid]
            rw [this, Option.or_none]
        rw [hsame]

/-- Applying the dedup-append handler twice with the same row is the same
as applying it once. -/
theorem handleInsertEcho_idem (l : List Msg) (r : Msg) :
    handleInsertEcho (handleInsertEcho l r) r = handleInsertEcho l r := by
  by_cases h : l.any (fun m => m.id == r.id) = true
  · unfold handleInsertEcho
    rw [if_pos h, if_pos h]
  · have h2 : (l ++ [r]).any (fun m => m.id == r.id) = true := by
      rw [List.any_append]
      simp
    unfold handleInsertEcho
    rw [if_neg h, if_pos h2]

/-- C2 (amended): on the conversation subscription, re-delivering an event
is idempotent, update events are never applied (the channel registers only
`INSERT` handlers), and the materialized row for an id equals the payload
of the *first* insert event carrying that id — not the last event. -/
theorem c2_first_insert_materialization :
    (∀ (l : List Msg) (e : ConvEvent),
        applyConvEvent (applyConvEvent l e) e = applyConvEvent l e) ∧
    (∀ (l : List Msg) (r : Msg), applyConvEvent l ⟨.update, r⟩ = l) ∧
    (∀ (events : List ConvEvent) (id : Nat),
        findById (List.foldl applyConvEvent [] events) id = firstInsert events id) := by
  refine ⟨?_, ?_, ?_⟩
  · intro l e
    cases hc : e.change with
    | insert =>
      have h1 : applyConvEvent l e = handleInsertEcho l e.row := by
        unfold applyConvEvent
        rw [hc]
      have h2 : ∀ l', applyConvEvent l' e = handleInsertEcho l' e.row := by
        intro l'
        unfold applyConvEvent
        rw [hc]
      rw [h1, h2]
      exact handleInsertEcho_idem l e.row
    | update =>
      have h1 : applyConvEvent l e = l := by
        unfold applyConvEvent
        rw [hc]
      rw [h1, h1]
  · intro l r
    rfl
  · intro events id
    rw [findById_foldl_applyConvEvent events [] id]
    rfl

/-- Delivering events never changes which subscription is live. -/
theorem deliverTagged_active (st : ConvUiState) (e : TaggedEvent) :
    (deliverTagged st e).active = st.active := by
  unfold deliverTagged
  split
  · rfl
  · rfl

/-- Membership in the dedup-append handler's output. -/
theorem mem_handleInsertEcho (l : List Msg) (r m : Msg) :
    m ∈ handleInsertEcho l r → m ∈ l ∨ m = r := by
  unfold handleInsertEcho
  split
  · exact fun h => Or.inl h
  · intro h
    rw [List.mem_append] at h
    rcases h with h | h
    · exact Or.inl h
    · right
      simpa using h

/-- Every log entry after delivering a batch of tagged events is either a
pre-existing entry or the row of an event tagged with the live
conversation. -/
theorem mem_foldl_deliverTagged (events : List TaggedEvent) :
    ∀ (st : ConvUiState) (m : Msg),
      m ∈ (List.foldl deliverTagged st events).log →
        m ∈ st.log ∨ ∃ e ∈ events, e.conv = st.active ∧ e.row = m := by
  induction events with
  | nil =>
    intro st m h
    rw [List.foldl_nil] at h
    exact Or.inl h
  | cons e es ih =>
    intro st m h
    rw [List.foldl_cons] at h
    rcases ih (deliverTagged st e) m h with h1 | ⟨e', he', hconv, hrow⟩
    · have hlog : (deliverTagged st e).log =
          if e.conv == st.active then handleInsertEcho st.log e.row else st.log := by
        unfold deliverTagged
        split
        · rfl
        · rfl
      rw [hlog] at h1
      by_cases hcv : (e.conv == st.active) = true
      · rw [if_pos hcv] at h1
        rcases mem_handleInsertEcho st.log e.row m h1 with h2 | h2
        · exact Or.inl h2
        · right
          exact ⟨e, List.mem_cons_self e es, beq_iff_eq.mp hcv, h2.symm⟩
      · rw [if_neg hcv] at h1
        exact Or.inl h1
    · right
      rw [deliverTagged_active] at hconv
      exact ⟨e', List.mem_cons_of_mem e he', hconv, hrow⟩

/-- C3: switching from conversation A to conversation B tears the A
subscription down before the B subscription exists (`deliverTagged` applies
an event only when its tag equals the single live subscription), so after
`openConv`, zero A-tagged events are applied: every entry of the resulting
log is from the B fetch or from a B-tagged event. -/
theorem c3_no_crosstalk :
    (∀ (st : ConvUiState) (e : TaggedEvent), e.conv ≠ st.active → deliverTagged st e = st) ∧
    (∀ (b : Nat) (fetched : List Msg) (events : List TaggedEvent) (m : Msg),
        m ∈ (List.foldl deliverTagged (openConv fetched b) events).log →
          m ∈ fetched ∨ ∃ e ∈ events, e.conv = b ∧ e.row = m) := by
  constructor
  · intro st e hne
    unfold deliverTagged
    rw [if_neg]
    simp only [beq_iff_eq]
    exact hne
  · intro b fetched events m h
    exact mem_foldl_deliverTagged events (openConv fetched b) m h

/-- Witness for `c3_no_crosstalk`: after opening conversation 1, an
interleaved A-tagged event is not applied, and the entry materialized from
the B-tagged event is accounted for by a B-tagged event. -/
theorem c3_no_crosstalk_witness :
    deliverTagged (openConv [] 1) evA = openConv [] 1 ∧
      (evB.row ∈ ([] : List Msg) ∨ ∃ e ∈ [evA, evB], e.conv = 1 ∧ e.row = evB.row) :=
  ⟨c3_no_crosstalk.1 (openConv [] 1) evA (by decide),
    c3_no_crosstalk.2 1 [] [evA, evB] evB.row (by decide)⟩

/-- C5: `sendFriendRequest` fails with a conflict and performs no insert
when a friendship between the unordered pair exists (either orientation,
any status); otherwise (both remote inserts succeeding) it inserts exactly
one pending friendship with the caller as requester and one
`friend_request` notification owned by the target. -/
theorem sendFriendRequest_conflict_or_inserts (st : Store) (caller target fid nid now : Nat) :
    (pairExists st.friendships caller target = true →
        sendFriendRequest st caller target fid nid now false false = (.conflict, st)) ∧
    (pairExists st.friendships caller target = false →
        sendFriendRequest st caller target fid nid now false false =
          (.success,
            ⟨st.friendships ++ [⟨fid, caller, target, .pending⟩],
              st.notifications ++
                [⟨nid, target, .friend_request, "You have a new friend request",
                  caller, false, now⟩]⟩)) := by
  constructor
  · intro h
    unfold sendFriendRequest
    rw [if_pos h]
  · intro h
    unfold sendFriendRequest
    rw [if_neg (by simp [h])]
    rfl

/-- Witness for `sendFriendRequest_conflict_or_inserts`: the conflict half
at a store holding an *accepted* friendship in the *reverse* orientation,
and the insert half at an empty store. -/
theorem sendFriendRequest_conflict_or_inserts_witness :
    sendFriendRequest ⟨[⟨3, 2, 1, .accepted⟩], []⟩ 1 2 9 10 0 false false =
        (.conflict, ⟨[⟨3, 2, 1, .accepted⟩], []⟩) ∧
      sendFriendRequest ⟨[], []⟩ 1 2 9 10 0 false false =
        (.success,
          ⟨[⟨9, 1, 2, .pending⟩],
            [⟨10, 2, .friend_request, "You have a new friend request", 1, false, 0⟩]⟩) :=
  ⟨(sendFriendRequest_conflict_or_inserts ⟨[⟨3, 2, 1, .accepted⟩], []⟩ 1 2 9 10 0).1 (by decide),
    (sendFriendRequest_conflict_or_inserts ⟨[], []⟩ 1 2 9 10 0).2 (by decide)⟩

/-- C4 counterexample: the claim "no operation ever transitions a row out
of a terminal state" is false.  After `request 1 2 5` and `respond 5 true`
the row has terminal status accepted; the operation `respond 5 false`
(reachable, e.g. by clicking decline on a stale pending list) moves it to
rejected, because the update filters only by id. -/
theorem c4_terminal_escape_counterexample :
    ¬ (∀ (ops : List FOp) (op : FOp), ∀ f ∈ runFOps ops,
        (f.status = .accepted ∨ f.status = .rejected) →
          ∀ f' ∈ applyFOp (runFOps ops) op, f'.id = f.id → f'.status = f.status) := by
  intro h
  have hbad := h [.request 1 2 5, .respond 5 true] (.respond 5 false)
    ⟨5, 1, 2, .accepted⟩ (by decide) (Or.inl rfl)
    ⟨5, 1, 2, .rejected⟩ (by decide) rfl
  exact absurd hbad (by decide)

/-- C4 (amended): rows are never deleted, a row with a fresh id is only
ever created with status pending, and any row whose status an operation
changes is an existing row overwritten to accepted or rejected (the
unguarded respond update) — so `pending → accepted` and
`pending → rejected` occur, but a repeated respond can also move a row
between the terminal statuses. -/
theorem c4_transitions (db : List Friendship) (op : FOp) :
    (∀ f ∈ db, ∃ f' ∈ applyFOp db op, f'.id = f.id) ∧
    (∀ f' ∈ applyFOp db op, (∀ f ∈ db, f.id ≠ f'.id) → f'.status = .pending) ∧
    (∀ f' ∈ applyFOp db op,
        f' ∈ db ∨ f'.status = .pending ∨
          ∃ f ∈ db, f' = { f with status := f'.status } ∧
            (f'.status = .accepted ∨ f'.status = .rejected)) := by
  refine ⟨?_, ?_, ?_⟩
  · intro f hf
    cases op with
    | request r a n =>
        simp only [applyFOp]
        by_cases hp : pairExists db r a = true
        · rw [if_pos hp]
          exact ⟨f, hf, rfl⟩
        · rw [if_neg hp]
          exact ⟨f, List.mem_append_left _ hf, rfl⟩
    | respond id accept =>
        simp only [applyFOp]
        refine ⟨if f.id == id then { f with status := if accept then .accepted else .rejected }
          else f, List.mem_map_of_mem _ hf, ?_⟩
        split
        · rfl
        · rfl
  · intro f' hf' hfresh
    cases op with
    | request r a n =>
        simp only [applyFOp] at hf'
        by_cases hp : pairExists db r a = true
        · rw [if_pos hp] at hf'
          exact absurd rfl (hfresh f' hf')
        · rw [if_neg hp] at hf'
          rw [List.mem_append] at hf'
          rcases hf' with hmem | hmem
          · exact absurd rfl (hfresh f' hmem)
          · have : f' = ⟨n, r, a, .pending⟩ := by simpa using hmem
            rw [this]
    | respond id accept =>
        simp only [applyFOp] at hf'
        rw [List.mem_map] at hf'
        rcases hf' with ⟨f, hf, hf'eq⟩
        have hid : f'.id = f.id := by
          rw [← hf'eq]
          split
          · rfl
          · rfl
        exact absurd hid.symm (hfresh f hf)
  · intro f' hf'
    cases op with
    | request r a n =>
        simp only [applyFOp] at hf'
        by_cases hp : pairExists db r a = true
        · rw [if_pos hp] at hf'
          exact Or.inl hf'
        · rw [if_neg hp] at hf'
          rw [List.mem_append] at hf'
          rcases hf' with hmem | hmem
          · exact Or.inl hmem
          · right
            left
            have : f' = ⟨n, r, a, .pending⟩ := by simpa using hmem
            rw [this]
    | respond id accept =>
        simp only [applyFOp] at hf'
        rw [List.mem_map] at hf'
        rcases hf' with ⟨f, hf, hf'eq⟩
        by_cases hc : (f.id == id) = true
        · rw [if_pos hc] at hf'eq
          right
          right
          refine ⟨f, hf, ?_, ?_⟩
          · rw [← hf'eq]
          · rw [← hf'eq]
            cases accept with
            | true => exact Or.inl rfl
            | false => exact Or.inr rfl
        · rw [if_neg hc] at hf'eq
          rw [← hf'eq]
          exact Or.inl hf

/-- Witness for `c4_transitions`, exercising all three conjuncts at
concrete inputs: a respond step on a pending row (no deletion, overwrite
lands in accepted/rejected) and a request step on an empty table (fresh row
is pending). -/
theorem c4_transitions_witness :
    (∃ f' ∈ applyFOp [(⟨5, 1, 2, .pending⟩ : Friendship)] (.respond 5 true),
        f'.id = (⟨5, 1, 2, Status.pending⟩ : Friendship).id) ∧
      (Friendship.status ⟨9, 1, 2, .pending⟩ = .pending) ∧
      ((⟨5, 1, 2, Status.accepted⟩ : Friendship) ∈ [(⟨5, 1, 2, Status.pending⟩ : Friendship)] ∨
        (⟨5, 1, 2, Status.accepted⟩ : Friendship).status = .pending ∨
        ∃ f ∈ [(⟨5, 1, 2, Status.pending⟩ : Friendship)],
          (⟨5, 1, 2, Status.accepted⟩ : Friendship) =
              { f with status := (⟨5, 1, 2, Status.accepted⟩ : Friendship).status } ∧
            ((⟨5, 1, 2, Status.accepted⟩ : Friendship).status = .accepted ∨
              (⟨5, 1, 2, Status.accepted⟩ : Friendship).status = .rejected)) :=
  ⟨(c4_transitions [⟨5, 1, 2, .pending⟩] (.respond 5 true)).1 ⟨5, 1, 2, .pending⟩ (by decide),
    (c4_transitions [] (.request 1 2 9)).2.1 ⟨9, 1, 2, .pending⟩ (by decide) (by decide),
    (c4_transitions [⟨5, 1, 2, .pending⟩] (.respond 5 true)).2.2 ⟨5, 1, 2, .accepted⟩ (by decide)⟩

/-- C8: when the friendship id does not resolve to an existing row, respond
fails with NotFound — the error is surfaced, nothing is written, and no
success is reported. -/
theorem handleFriendRequest_notFound (pending db : List Friendship) (notifs : List Notif)
    (uid fid : Nat) (accept : Bool) (nid now : Nat)
    (h : ∀ f ∈ db, f.id ≠ fid) :
    handleFriendRequest pending db notifs uid fid accept nid now = (.notFound, db, notifs) := by
  have hany : db.any (fun f => f.id == fid) = false := by
    rw [List.any_eq_false]
    intro f hf
    simp only [beq_iff_eq]
    exact h f hf
  unfold handleFriendRequest remoteUpdateFriendship
  rw [hany]
  rfl

/-- Witness for `handleFriendRequest_notFound`: a store whose only
friendship row has id 3, responded to with the unresolved id 99. -/
theorem handleFriendRequest_notFound_witness :
    handleFriendRequest [] [⟨3, 1, 2, .pending⟩] [] 2 99 true 7 0 =
      (.notFound, [⟨3, 1, 2, .pending⟩], []) :=
  handleFriendRequest_notFound [] [⟨3, 1, 2, .pending⟩] [] 2 99 true 7 0 (by decide)

/-- C7: when a send carries a media attachment and the blob upload fails,
the whole send fails with the upload error: no message row is written to
the remote store, no notification is written, and the local conversation
log is unchanged. -/
theorem sendMessage_upload_atomic (st : SendState) (msgText : String) (f : UFile)
    (senderId receiverId newId newNid now : Nat) (insertErr notifErr : Bool)
    (senderName : String) :
    sendMessage st msgText (some f) senderId receiverId newId newNid now none
      insertErr notifErr senderName = (.uploadFailed, st) := by
  unfold sendMessage
  have hg : (strTrim msgText == "" && (some f : Option UFile).isNone) = false := by
    simp
  rw [hg]
  rfl

/-- C9 counterexample: a remote write performed as part of the
friend-request action — the follow-up notification insert — fails
(`nErr = true`, its error object is discarded by the source), yet the
action still reports success; the notifications table shows the insert
indeed did not happen. -/
theorem c9_notif_error_swallowed_counterexample :
    sendFriendRequest ⟨[], []⟩ 1 2 9 10 0 false true =
      (.success, ⟨[⟨9, 1, 2, .pending⟩], []⟩) := by
  decide

/-- C9 (amended): a failure of the *primary* insert (the friendship row or
the message row) is never reported as success and leaves all state
unchanged; but a failure of the follow-up notification insert is ignored —
the action still reports success. -/
theorem primary_errors_surfaced :
    (∀ (st : Store) (c t fid nid now : Nat) (nErr : Bool),
        (sendFriendRequest st c t fid nid now true nErr).1 ≠ .success ∧
          (sendFriendRequest st c t fid nid now true nErr).2 = st) ∧
    (∀ (st : SendState) (m : String) (file : Option UFile)
        (s r nid nnid now : Nat) (upl : Option String) (nErr : Bool) (nm : String),
        (sendMessage st m file s r nid nnid now upl true nErr nm).1 ≠ .success ∧
          (sendMessage st m file s r nid nnid now upl true nErr nm).2 = st) ∧
    (∀ (st : Store) (c t fid nid now : Nat),
        pairExists st.friendships c t = false →
          (sendFriendRequest st c t fid nid now false true).1 = .success ∧
            (sendFriendRequest st c t fid nid now false true).2.notifications =
              st.notifications) ∧
    (∀ (st : SendState) (m : String) (s r nid nnid now : Nat) (nm : String),
        strTrim m ≠ "" →
          (sendMessage st m none s r nid nnid now none false true nm).1 = .success ∧
            (sendMessage st m none s r nid nnid now none false true nm).2.remoteNotifs =
              st.remoteNotifs) := by
  refine ⟨?_, ?_, ?_, ?_⟩
  · intro st c t fid nid now nErr
    unfold sendFriendRequest
    by_cases hp : pairExists st.friendships c t = true
    · rw [if_pos hp]
      exact ⟨fun hcon => SfrResult.noConfusion hcon, rfl⟩
    · rw [if_neg hp]
      exact ⟨fun hcon => SfrResult.noConfusion hcon, rfl⟩
  · intro st m file s r nid nnid now upl nErr nm
    unfold sendMessage
    by_cases hg : (strTrim m == "" && file.isNone) = true
    · rw [if_pos hg]
      exact ⟨fun hcon => SendResult.noConfusion hcon, rfl⟩
    · rw [if_neg hg]
      cases file with
      | none =>
          exact ⟨fun hcon => SendResult.noConfusion hcon, rfl⟩
      | some f =>
          cases upl with
          | none => exact ⟨fun hcon => SendResult.noConfusion hcon, rfl⟩
          | some url => exact ⟨fun hcon => SendResult.noConfusion hcon, rfl⟩
  · intro st c t fid nid now h
    unfold sendFriendRequest
    rw [if_neg (by simp [h])]
    exact ⟨rfl, rfl⟩
  · intro st m s r nid nnid now nm h
    have hg : ¬ (strTrim m == "" && (none : Option UFile).isNone) = true := by
      simp only [Option.isNone_none, Bool.and_true]
      simp only [beq_iff_eq]
      exact h
    unfold sendMessage
    rw [if_neg hg]
    exact ⟨rfl, rfl⟩

/-- Witness for `primary_errors_surfaced`, exercising the hypothesis-bearing
conjuncts at concrete inputs: a failed notification insert after a
successful friendship insert, and after a successful message insert. -/
theorem primary_errors_surfaced_witness :
    ((sendFriendRequest ⟨[], []⟩ 1 2 9 10 0 false true).1 = .success ∧
        (sendFriendRequest ⟨[], []⟩ 1 2 9 10 0 false true).2.notifications =
          (⟨[], []⟩ : Store).notifications) ∧
      ((sendMessage ⟨[], [], []⟩ "hello" none 1 2 5 6 0 none false true "alice").1 = .success ∧
        (sendMessage ⟨[], [], []⟩ "hello" none 1 2 5 6 0 none false true "alice").2.remoteNotifs =
          (⟨[], [], []⟩ : SendState).remoteNotifs) :=
  ⟨primary_errors_surfaced.2.2.1 ⟨[], []⟩ 1 2 9 10 0 (by decide),
    primary_errors_surfaced.2.2.2 ⟨[], [], []⟩ "hello" 1 2 5 6 0 "alice" (by decide)⟩

/-- C6 counterexample: with 21 unread notification rows and no pending
requests the badge shows 20 (the fetch is `limit(20)`), not the count of
the user's unread notification rows, which is 21. -/
theorem c6_limit20_counterexample :
    unreadCount manyNotifs [] 1 = 20 ∧
      (manyNotifs.filter (fun n => n.user_id == 1 && !n.read)).length +
          (fetchPendingIncoming [] 1).length = 21 ∧
      (20 : Nat) ≠ 21 := by
  refine ⟨by decide, by decide, by decide⟩

/-- Inserting into the sorted list adds one row with its `countP`
contribution. -/
theorem countP_insertByCreatedDesc (p : Notif → Bool) (n : Notif) (l : List Notif) :
    (insertByCreatedDesc n l).countP p = l.countP p + (if p n then 1 else 0) := by
  induction l with
  | nil => simp [insertByCreatedDesc, List.countP_cons]
  | cons m ms ih =>
      unfold insertByCreatedDesc
      split
      · simp only [List.countP_cons]
      · simp only [List.countP_cons, ih]
        omega

/-- Sorting preserves `countP`. -/
theorem countP_sortByCreatedDesc (p : Notif → Bool) (l : List Notif) :
    (sortByCreatedDesc l).countP p = l.countP p := by
  unfold sortByCreatedDesc
  induction l with
  | nil => rfl
  | cons m ms ih =>
      rw [List.foldr_cons, countP_insertByCreatedDesc, ih, List.countP_cons]

/-- Sorting preserves length. -/
theorem length_sortByCreatedDesc (l : List Notif) :
    (sortByCreatedDesc l).length = l.length := by
  have h := countP_sortByCreatedDesc (fun _ => true) l
  simpa [List.countP_true] using h

/-- C6 (amended): the unread badge equals the number of unread rows among
the user's 20 most recent notifications plus the number of pending incoming
friendships; whenever the user owns at most 20 notification rows this is
exactly the claim's formula (count of all unread rows plus pending
incoming count). -/
theorem unreadCount_badge (allNotifs : List Notif) (fs : List Friendship) (uid : Nat)
    (h : (allNotifs.filter (fun n => n.user_id == uid)).length ≤ 20) :
    unreadCount allNotifs fs uid =
      (allNotifs.filter (fun n => n.user_id == uid && !n.read)).length +
        (fetchPendingIncoming fs uid).length := by
  unfold unreadCount fetchUserNotifs
  rw [List.take_of_length_le (by rw [length_sortByCreatedDesc]; exact h)]
  congr 1
  rw [← List.countP_eq_length_filter, ← List.countP_eq_length_filter,
    countP_sortByCreatedDesc, List.countP_filter]
  have hfun : (fun n : Notif => !n.read && n.user_id == uid) =
      (fun n : Notif => n.user_id == uid && !n.read) := by
    funext n
    exact Bool.and_comm (!n.read) (n.user_id == uid)
  rw [hfun]

/-- Witness for `unreadCount_badge`: with 2 unread notifications and 1
pending incoming friendship the badge formula applies, and the badge
value is 3. -/
theorem unreadCount_badge_witness :
    (unreadCount twoUnread onePending 1 =
        (twoUnread.filter (fun n => n.user_id == 1 && !n.read)).length +
          (fetchPendingIncoming onePending 1).length) ∧
      unreadCount twoUnread onePending 1 = 3 :=
  ⟨unreadCount_badge twoUnread onePending 1 (by decide), by decide⟩

end Syncora
